import Mathlib

/-!
Verification of the Brainwave route layer (`src/server/routes.ts`).

The repository ships only the route layer (`routes.ts`) and the composition
root (`app.ts`).  The domain modules ("concepts": Sessioning, Authing,
Posting, CommentOnPost, LikeOnPost, Friending), the response formatter and
the MongoDB `ObjectId` type live outside the shipped sources, so those are
modelled from the specification (each such definition carries a doc comment
beginning `Modelled from the spec:`).  The route handlers themselves are
translated directly from `routes.ts`.

Effects are embedded in a state-passing error monad `M`: a computation maps
an application state to a result (`Except Err α`) together with the state as
mutated so far.  An error does NOT roll back earlier mutations, matching
JavaScript exception semantics where awaited writes persist when a later
call throws.
-/

namespace Brainwave

/-- Error taxonomy from spec section 7, plus `badId` for the route-layer
failure of turning a malformed id string into an internal id (the
`new ObjectId(...)` constructor throw), which is raised by the route layer
itself and never by a domain module. -/
inductive Err where
  | notAuthenticated
  | alreadyAuthenticated
  | notAuthorized
  | notFound
  | validationError
  | conflictError
  | badId
  deriving DecidableEq, Repr

/-- A user record owned by the Authentication concept. -/
structure UserDoc where
  id : Nat
  username : String
  password : String
  deriving DecidableEq, Repr

/-- A post record owned by the Posting concept. -/
structure PostDoc where
  id : Nat
  author : Nat
  content : String
  options : Option String
  deriving DecidableEq, Repr

/-- A comment record owned by the Commenting concept (`item` is the parent
post id). -/
structure CommentDoc where
  id : Nat
  item : Nat
  author : Nat
  content : String
  options : Option String
  deriving DecidableEq, Repr

/-- A like record owned by the Liking concept (`item` is the parent post
id, `liker` the user who liked it). -/
structure LikeDoc where
  id : Nat
  item : Nat
  liker : Nat
  deriving DecidableEq, Repr

/-- Status of a friend request. -/
inductive ReqStatus where
  | pending
  | accepted
  | rejected
  deriving DecidableEq, Repr

/-- A friend-request record owned by the Friending concept. -/
structure FriendRequestDoc where
  fromUser : Nat
  toUser : Nat
  status : ReqStatus
  deriving DecidableEq, Repr

/-- The full application state visible to one request: the request-scoped
session (bound user id, or `none` when unauthenticated) plus the stores of
every concept and a fresh-id counter standing for MongoDB id generation. -/
structure St where
  session : Option Nat
  users : List UserDoc
  posts : List PostDoc
  comments : List CommentDoc
  likes : List LikeDoc
  friends : List (Nat × Nat)
  requests : List FriendRequestDoc
  nextId : Nat
  deriving DecidableEq, Repr

/-- A request-scoped computation: state in, `Except` result and state out.
On an error the state holds every mutation made before the throw. -/
def M (α : Type) : Type := St → Except Err α × St

/-- Return a value, leaving the state unchanged. -/
def M.pure {α : Type} (a : α) : M α := fun s => (Except.ok a, s)

/-- Sequencing: a thrown error aborts the rest of the handler but keeps the
state mutations already made (JavaScript `await`/`throw` semantics). -/
def M.bind {α β : Type} (m : M α) (f : α → M β) : M β := fun s =>
  match m s with
  | (Except.ok a, s1) => f a s1
  | (Except.error e, s1) => (Except.error e, s1)

/-- Throw an error, leaving the state unchanged. -/
def M.throw {α : Type} (e : Err) : M α := fun s => (Except.error e, s)

/-- Is a character a hexadecimal digit? -/
def isHexChar (c : Char) : Bool :=
  (decide ('0' ≤ c) && decide (c ≤ '9')) ||
  (decide ('a' ≤ c) && decide (c ≤ 'f')) ||
  (decide ('A' ≤ c) && decide (c ≤ 'F'))

/-- Numeric value of a hexadecimal digit. -/
def hexVal (c : Char) : Nat :=
  if decide ('0' ≤ c) && decide (c ≤ '9') then c.toNat - '0'.toNat
  else if decide ('a' ≤ c) && decide (c ≤ 'f') then c.toNat - 'a'.toNat + 10
  else c.toNat - 'A'.toNat + 10

/-- Modelled from the spec: the MongoDB `ObjectId` string form is outside
the shipped sources; per spec section 6, identifiers crossing the boundary
are opaque strings parsed into internal id values, and malformed ids fail
validation.  A well-formed id string is 24 hexadecimal characters; parsing
yields its numeric value. -/
def parseObjectId (s : String) : Option Nat :=
  if s.length == 24 && s.toList.all isHexChar then
    some (s.toList.foldl (fun a c => a * 16 + hexVal c) 0)
  else none

/-- The route layer call `new ObjectId(idString)`: succeeds with the internal
id when the string is well formed, otherwise throws `badId` before any
domain module sees the string. -/
def objectId (s : String) : M Nat := fun st =>
  match parseObjectId s with
  | some n => (Except.ok n, st)
  | none => (Except.error Err.badId, st)

namespace Sessioning

/-- Modelled from the spec: return the bound user id or fail with an
unauthenticated condition (spec section 4.1). -/
def getUser : M Nat := fun s =>
  match s.session with
  | some u => (Except.ok u, s)
  | none => (Except.error Err.notAuthenticated, s)

/-- Modelled from the spec: assert the session is unauthenticated, failing
with an already-logged-in condition otherwise (spec section 4.1). -/
def isLoggedOut : M Unit := fun s =>
  match s.session with
  | some _ => (Except.error Err.alreadyAuthenticated, s)
  | none => (Except.ok (), s)

/-- Modelled from the spec: assert the session is bound to a user, failing
with an unauthenticated condition otherwise. -/
def isLoggedIn : M Unit := fun s =>
  match s.session with
  | some _ => (Except.ok (), s)
  | none => (Except.error Err.notAuthenticated, s)

/-- Modelled from the spec: bind the session to a user.  Per spec section
4.1, login requires the session to currently be unauthenticated and fails
with an already-logged-in condition otherwise. -/
def start (u : Nat) : M Unit :=
  M.bind isLoggedOut fun _ => fun s => (Except.ok (), { s with session := some u })

/-- Modelled from the spec: terminate the session (logout requires an
authenticated session, spec section 6). -/
def end_ : M Unit :=
  M.bind isLoggedIn fun _ => fun s => (Except.ok (), { s with session := none })

end Sessioning

/-- The user record stored under a given username, if any. -/
def findUserByName (s : St) (username : String) : Option UserDoc :=
  s.users.find? (fun u => u.username == username)

/-- The user record stored under a given id, if any. -/
def findUserById (s : St) (id : Nat) : Option UserDoc :=
  s.users.find? (fun u => u.id == id)

namespace Authing

/-- Modelled from the spec: look a user up by id; missing users fail with
NotFound (spec section 7 taxonomy). -/
def getUserById (id : Nat) : M UserDoc := fun s =>
  match findUserById s id with
  | some u => (Except.ok u, s)
  | none => (Except.error Err.notFound, s)

/-- Modelled from the spec: list all users. -/
def getUsers : M (List UserDoc) := fun s => (Except.ok s.users, s)

/-- Modelled from the spec: look a user up by username; missing users fail
with NotFound. -/
def getUserByUsername (username : String) : M UserDoc := fun s =>
  match findUserByName s username with
  | some u => (Except.ok u, s)
  | none => (Except.error Err.notFound, s)

/-- Modelled from the spec: create an account.  Malformed input (empty
username or password) fails with ValidationError, a duplicate username with
ConflictError (spec sections 3 and 7); otherwise a fresh user is stored. -/
def create (username password : String) : M (String × UserDoc) := fun s =>
  if username == "" || password == "" then (Except.error Err.validationError, s)
  else if s.users.any (fun u => u.username == username) then (Except.error Err.conflictError, s)
  else
    let u : UserDoc := ⟨s.nextId, username, password⟩
    (Except.ok ("User created successfully!", u),
     { s with users := s.users ++ [u], nextId := s.nextId + 1 })

/-- Modelled from the spec: check a credential pair; a wrong username or
password fails with NotFound (spec section 7: NotFound covers a missing
user). -/
def authenticate (username password : String) : M UserDoc := fun s =>
  match s.users.find? (fun u => u.username == username && u.password == password) with
  | some u => (Except.ok u, s)
  | none => (Except.error Err.notFound, s)

/-- Modelled from the spec: change a username, failing with ConflictError
when the new name is taken (spec section 3: username unique). -/
def updateUsername (user : Nat) (username : String) : M String := fun s =>
  if s.users.any (fun u => u.username == username) then (Except.error Err.conflictError, s)
  else (Except.ok "Username updated successfully!",
        { s with users := s.users.map (fun u => if u.id == user then { u with username := username } else u) })

/-- Modelled from the spec: change a password after checking the current
one; a wrong current password is malformed input (ValidationError). -/
def updatePassword (user : Nat) (currentPassword newPassword : String) : M String := fun s =>
  match findUserById s user with
  | none => (Except.error Err.notFound, s)
  | some u =>
    if u.password == currentPassword then
      (Except.ok "Password updated successfully!",
       { s with users := s.users.map (fun v => if v.id == user then { v with password := newPassword } else v) })
    else (Except.error Err.validationError, s)

/-- Modelled from the spec: delete an account; a missing user fails with
NotFound (spec section 7: NotFound covers a missing user). -/
def delete (user : Nat) : M String := fun s =>
  if s.users.any (fun u => u.id == user) then
    (Except.ok "User deleted!", { s with users := s.users.filter (fun u => u.id != user) })
  else (Except.error Err.notFound, s)

/-- Modelled from the spec: map user ids to usernames for display. -/
def idsToUsernames (ids : List Nat) : M (List String) := fun s =>
  (Except.ok (ids.map (fun i => match findUserById s i with
    | some u => u.username
    | none => "DELETED_USER")), s)

end Authing

/-- The post record stored under a given id, if any. -/
def findPost (s : St) (oid : Nat) : Option PostDoc :=
  s.posts.find? (fun p => p.id == oid)

/-- Does a post with the given id exist? -/
def postExists (s : St) (oid : Nat) : Bool :=
  s.posts.any (fun p => p.id == oid)

namespace Posting

/-- Modelled from the spec: store a fresh post owned by `author`. -/
def create (author : Nat) (content : String) (options : Option String) :
    M (String × PostDoc) := fun s =>
  let p : PostDoc := ⟨s.nextId, author, content, options⟩
  (Except.ok ("Post successfully created!", p),
   { s with posts := s.posts ++ [p], nextId := s.nextId + 1 })

/-- Modelled from the spec: list all posts. -/
def getPosts : M (List PostDoc) := fun s => (Except.ok s.posts, s)

/-- Modelled from the spec: list the posts of one author. -/
def getByAuthor (author : Nat) : M (List PostDoc) := fun s =>
  (Except.ok (s.posts.filter (fun p => p.author == author)), s)

/-- Modelled from the spec (section 4.2): assert the caller owns the post,
failing with NotAuthorized if the caller id does not match the stored owner
id, or NotFound if the post id does not resolve. -/
def assertAuthorIsUser (oid user : Nat) : M Unit := fun s =>
  match findPost s oid with
  | none => (Except.error Err.notFound, s)
  | some p =>
    if p.author == user then (Except.ok (), s)
    else (Except.error Err.notAuthorized, s)

/-- Modelled from the spec (section 4.4): assert the post exists, failing
with NotFound otherwise. -/
def assertPostExists (oid : Nat) : M Unit := fun s =>
  if postExists s oid then (Except.ok (), s) else (Except.error Err.notFound, s)

/-- Modelled from the spec: update the content/options of a post in place
(fields left `none` are unchanged). -/
def update (oid : Nat) (content : Option String) (options : Option String) : M String := fun s =>
  (Except.ok "Post successfully updated!",
   { s with posts := s.posts.map (fun p =>
      if p.id == oid then { p with content := content.getD p.content,
                                   options := options.orElse (fun _ => p.options) }
      else p) })

/-- Modelled from the spec: remove a post. -/
def delete (oid : Nat) : M String := fun s =>
  (Except.ok "Post deleted successfully!",
   { s with posts := s.posts.filter (fun p => p.id != oid) })

end Posting

/-- The comment record stored under a given id, if any. -/
def findComment (s : St) (oid : Nat) : Option CommentDoc :=
  s.comments.find? (fun c => c.id == oid)

/-- The comments attached to a given parent post id, in store order. -/
def commentsByItem (s : St) (item : Nat) : List CommentDoc :=
  s.comments.filter (fun c => c.item == item)

namespace CommentOnPost

/-- Modelled from the spec: store a fresh comment under parent `item`,
owned by `author`. -/
def create (item author : Nat) (content : String) (options : Option String) :
    M (String × CommentDoc) := fun s =>
  let c : CommentDoc := ⟨s.nextId, item, author, content, options⟩
  (Except.ok ("Comment successfully created!", c),
   { s with comments := s.comments ++ [c], nextId := s.nextId + 1 })

/-- Modelled from the spec: list the comments attached to one parent post. -/
def getByItem (item : Nat) : M (List CommentDoc) := fun s =>
  (Except.ok (commentsByItem s item), s)

/-- Modelled from the spec (section 4.2): assert the caller owns the
comment, failing with NotAuthorized on an ownership mismatch and NotFound
when the comment id does not resolve. -/
def assertAuthorIsUser (oid user : Nat) : M Unit := fun s =>
  match findComment s oid with
  | none => (Except.error Err.notFound, s)
  | some c =>
    if c.author == user then (Except.ok (), s)
    else (Except.error Err.notAuthorized, s)

/-- Modelled from the spec: update the content/options of a comment in place. -/
def update (oid : Nat) (content : Option String) (options : Option String) : M String := fun s =>
  (Except.ok "Comment successfully updated!",
   { s with comments := s.comments.map (fun c =>
      if c.id == oid then { c with content := content.getD c.content,
                                   options := options.orElse (fun _ => c.options) }
      else c) })

/-- Modelled from the spec: remove a comment. -/
def delete (oid : Nat) : M String := fun s =>
  (Except.ok "Comment deleted successfully!",
   { s with comments := s.comments.filter (fun c => c.id != oid) })

end CommentOnPost

/-- Is there a like by `user` on post `item`? -/
def likeExists (s : St) (item user : Nat) : Bool :=
  s.likes.any (fun l => l.item == item && l.liker == user)

/-- How many like records a given (post, user) pair has. -/
def likePairCount (s : St) (item user : Nat) : Nat :=
  (s.likes.filter (fun l => l.item == item && l.liker == user)).length

/-- The number of likes on one post, as the Liking module reports it. -/
def likeCount (s : St) (item : Nat) : Nat :=
  (s.likes.filter (fun l => l.item == item)).length

namespace LikeOnPost

/-- Modelled from the spec: record a like; a duplicate like by the same
user on the same post fails with ConflictError (spec section 3: at most one
like per (post, user) pair; section 7: ConflictError covers a duplicate
like). -/
def addLike (item user : Nat) : M (String × LikeDoc) := fun s =>
  if likeExists s item user then (Except.error Err.conflictError, s)
  else
    let l : LikeDoc := ⟨s.nextId, item, user⟩
    (Except.ok ("Like added!", l),
     { s with likes := s.likes ++ [l], nextId := s.nextId + 1 })

/-- Modelled from the spec: remove the like a user placed on a post; a missing like
fails with NotFound. -/
def removeLike (item user : Nat) : M String := fun s =>
  if likeExists s item user then
    (Except.ok "Like removed!",
     { s with likes := s.likes.filter (fun l => !(l.item == item && l.liker == user)) })
  else (Except.error Err.notFound, s)

/-- Modelled from the spec: the number of likes on one post. -/
def getNumLikes (item : Nat) : M Nat := fun s =>
  (Except.ok (likeCount s item), s)

/-- Modelled from the spec: the likes a user has placed. -/
def getLikesByUser (user : Nat) : M (List LikeDoc) := fun s =>
  (Except.ok (s.likes.filter (fun l => l.liker == user)), s)

end LikeOnPost

/-- Are two users friends (the pair is unordered)? -/
def areFriends (s : St) (u v : Nat) : Bool :=
  s.friends.any (fun p => (p.1 == u && p.2 == v) || (p.1 == v && p.2 == u))

/-- Is there a pending request between two users, in either direction? -/
def pendingBetween (s : St) (u v : Nat) : Bool :=
  s.requests.any (fun r => r.status == ReqStatus.pending &&
    ((r.fromUser == u && r.toUser == v) || (r.fromUser == v && r.toUser == u)))

/-- Is there a pending request from `u` to `v` (direction matters)? -/
def pendingFromTo (s : St) (u v : Nat) : Bool :=
  s.requests.any (fun r => r.status == ReqStatus.pending && r.fromUser == u && r.toUser == v)

namespace Friending

/-- Modelled from the spec (section 4.5): send a request; legal only from
the "none" state, so an existing friendship or a pending request in either
direction fails with ConflictError (duplicate request). -/
def sendRequest (u v : Nat) : M String := fun s =>
  if areFriends s u v then (Except.error Err.conflictError, s)
  else if pendingBetween s u v then (Except.error Err.conflictError, s)
  else (Except.ok "Sent request!",
        { s with requests := s.requests ++ [⟨u, v, ReqStatus.pending⟩] })

/-- Modelled from the spec (section 4.5): accept a pending request from `u`
to `v`, consuming it and creating the friendship; accepting a nonexistent
request fails. -/
def acceptRequest (u v : Nat) : M String := fun s =>
  if pendingFromTo s u v then
    (Except.ok "Accepted request!",
     { s with requests := s.requests.filter (fun r =>
          !(r.status == ReqStatus.pending && r.fromUser == u && r.toUser == v)),
              friends := s.friends ++ [(u, v)] })
  else (Except.error Err.notFound, s)

/-- Modelled from the spec (section 4.5): reject a pending request from `u`
to `v`, consuming it; rejecting a nonexistent request fails. -/
def rejectRequest (u v : Nat) : M String := fun s =>
  if pendingFromTo s u v then
    (Except.ok "Rejected request!",
     { s with requests := s.requests.filter (fun r =>
          !(r.status == ReqStatus.pending && r.fromUser == u && r.toUser == v)) })
  else (Except.error Err.notFound, s)

/-- Modelled from the spec (section 4.5): withdraw a pending request from
`u` to `v`; removing a nonexistent request fails. -/
def removeRequest (u v : Nat) : M String := fun s =>
  if pendingFromTo s u v then
    (Except.ok "Removed request!",
     { s with requests := s.requests.filter (fun r =>
          !(r.status == ReqStatus.pending && r.fromUser == u && r.toUser == v)) })
  else (Except.error Err.notFound, s)

/-- Modelled from the spec (section 3): a friendship is removable by either
party; removing a nonexistent friendship fails. -/
def removeFriend (u v : Nat) : M String := fun s =>
  if areFriends s u v then
    (Except.ok "Removed friend!",
     { s with friends := s.friends.filter (fun p =>
          !((p.1 == u && p.2 == v) || (p.1 == v && p.2 == u))) })
  else (Except.error Err.notFound, s)

/-- Modelled from the spec: the users a given user is friends with. -/
def getFriends (u : Nat) : M (List Nat) := fun s =>
  (Except.ok (s.friends.filterMap (fun p =>
    if p.1 == u then some p.2 else if p.2 == u then some p.1 else none)), s)

/-- Modelled from the spec: the requests involving a given user. -/
def getRequests (u : Nat) : M (List FriendRequestDoc) := fun s =>
  (Except.ok (s.requests.filter (fun r => r.fromUser == u || r.toUser == u)), s)

end Friending

/-- The username shown for an internal user id (spec section 2: the
response formatter maps raw user ids to usernames). -/
def usernameOf (s : St) (id : Nat) : String :=
  match findUserById s id with
  | some u => u.username
  | none => "DELETED_USER"

/-- A post as formatted for a response: the author id replaced by the
username of the author, everything else kept. -/
structure PostResp where
  id : Nat
  author : String
  content : String
  options : Option String
  deriving DecidableEq, Repr

/-- A comment as formatted for a response. -/
structure CommentResp where
  id : Nat
  item : Nat
  author : String
  content : String
  options : Option String
  deriving DecidableEq, Repr

/-- A like as formatted for a response. -/
structure LikeResp where
  id : Nat
  item : Nat
  liker : String
  deriving DecidableEq, Repr

namespace Responses

/-- Modelled from the spec: format one post, replacing the author id with
the username of the author. -/
def post (p : PostDoc) : M PostResp := fun s =>
  (Except.ok ⟨p.id, usernameOf s p.author, p.content, p.options⟩, s)

/-- Modelled from the spec: format a list of posts. -/
def posts (ps : List PostDoc) : M (List PostResp) := fun s =>
  (Except.ok (ps.map (fun p => ⟨p.id, usernameOf s p.author, p.content, p.options⟩)), s)

/-- Modelled from the spec: format one comment. -/
def comment (c : CommentDoc) : M CommentResp := fun s =>
  (Except.ok ⟨c.id, c.item, usernameOf s c.author, c.content, c.options⟩, s)

/-- Modelled from the spec: format a list of comments. -/
def comments (cs : List CommentDoc) : M (List CommentResp) := fun s =>
  (Except.ok (cs.map (fun c => ⟨c.id, c.item, usernameOf s c.author, c.content, c.options⟩)), s)

/-- Modelled from the spec: format one like. -/
def like (l : LikeDoc) : M LikeResp := fun s =>
  (Except.ok ⟨l.id, l.item, usernameOf s l.liker⟩, s)

/-- Modelled from the spec: format friend requests (usernames substituted
for ids). -/
def friendRequests (rs : List FriendRequestDoc) : M (List (String × String × ReqStatus)) := fun s =>
  (Except.ok (rs.map (fun r => (usernameOf s r.fromUser, usernameOf s r.toUser, r.status))), s)

end Responses

/-- A post as returned by `GET /posts`: the formatted post spread together
with a `likes` count and the raw `comments` list (`{...post, likes, comments}`
in `routes.ts`). -/
structure EnrichedPost where
  id : Nat
  author : String
  content : String
  options : Option String
  likes : Nat
  comments : List CommentDoc
  deriving DecidableEq, Repr

namespace Routes

/-- `GET /session` (routes.ts lines 19-23). -/
def getSessionUser : M UserDoc :=
  M.bind Sessioning.getUser fun user =>
  Authing.getUserById user

/-- `GET /users` (routes.ts lines 25-28). -/
def getUsers : M (List UserDoc) :=
  Authing.getUsers

/-- `GET /users/:username` (routes.ts lines 30-34). -/
def getUser (username : String) : M UserDoc :=
  Authing.getUserByUsername username

/-- `POST /users` (routes.ts lines 36-40). -/
def createUser (username password : String) : M (String × UserDoc) :=
  M.bind Sessioning.isLoggedOut fun _ =>
  Authing.create username password

/-- `PATCH /users/username` (routes.ts lines 42-46). -/
def updateUsername (username : String) : M String :=
  M.bind Sessioning.getUser fun user =>
  Authing.updateUsername user username

/-- `PATCH /users/password` (routes.ts lines 48-52). -/
def updatePassword (currentPassword newPassword : String) : M String :=
  M.bind Sessioning.getUser fun user =>
  Authing.updatePassword user currentPassword newPassword

/-- `DELETE /users` (routes.ts lines 54-59): resolve the caller, end the
session, then delete the account — in that order. -/
def deleteUser : M String :=
  M.bind Sessioning.getUser fun user =>
  M.bind Sessioning.end_ fun _ =>
  Authing.delete user

/-- `POST /login` (routes.ts lines 61-66): authenticate the credentials
first, then bind the session. -/
def logIn (username password : String) : M String :=
  M.bind (Authing.authenticate username password) fun u =>
  M.bind (Sessioning.start u.id) fun _ =>
  M.pure "Logged in!"

/-- `POST /logout` (routes.ts lines 68-72). -/
def logOut : M String :=
  M.bind Sessioning.end_ fun _ =>
  M.pure "Logged out!"

/-- The enrichment loop of `GET /posts` (routes.ts lines 85-90): for each
formatted post, read its like count and its raw comment list and spread
them into the representation. -/
def enrichPosts (resps : List PostResp) : M (List EnrichedPost) :=
  match resps with
  | [] => M.pure []
  | p :: rest =>
    M.bind (LikeOnPost.getNumLikes p.id) fun numLikes =>
    M.bind (CommentOnPost.getByItem p.id) fun cs =>
    M.bind (enrichPosts rest) fun tail =>
    M.pure (⟨p.id, p.author, p.content, p.options, numLikes, cs⟩ :: tail)

/-- `GET /posts` (routes.ts lines 74-92).  In the source `if (author)` is a
JavaScript truthiness test, so an absent author and an empty author string
both take the unfiltered branch. -/
def getPosts (author : Option String) : M (List EnrichedPost) :=
  M.bind
    (match author with
     | some a =>
       if a == "" then Posting.getPosts
       else
         M.bind (Authing.getUserByUsername a) fun u =>
         Posting.getByAuthor u.id
     | none => Posting.getPosts)
    fun ps =>
  M.bind (Responses.posts ps) fun resps =>
  enrichPosts resps

/-- `POST /posts` (routes.ts lines 94-99). -/
def createPost (content : String) (options : Option String) : M (String × PostResp) :=
  M.bind Sessioning.getUser fun user =>
  M.bind (Posting.create user content options) fun created =>
  M.bind (Responses.post created.2) fun resp =>
  M.pure (created.1, resp)

/-- `PATCH /posts/:id` (routes.ts lines 101-107). -/
def updatePost (id : String) (content : Option String) (options : Option String) : M String :=
  M.bind Sessioning.getUser fun user =>
  M.bind (objectId id) fun oid =>
  M.bind (Posting.assertAuthorIsUser oid user) fun _ =>
  Posting.update oid content options

/-- `DELETE /posts/:id` (routes.ts lines 109-115). -/
def deletePost (id : String) : M String :=
  M.bind Sessioning.getUser fun user =>
  M.bind (objectId id) fun oid =>
  M.bind (Posting.assertAuthorIsUser oid user) fun _ =>
  Posting.delete oid

/-- `GET /posts/:pid/comments` (routes.ts lines 117-125). -/
def getCommentsOnPosts (pid : String) : M (List CommentResp) :=
  M.bind (objectId pid) fun id =>
  M.bind (CommentOnPost.getByItem id) fun cs =>
  Responses.comments cs

/-- `POST /posts/:pid/comments` (routes.ts lines 126-133): assert the
parent post exists, then create the comment. -/
def createCommentOnPost (pid : String) (content : String) (options : Option String) :
    M (String × CommentResp) :=
  M.bind Sessioning.getUser fun user =>
  M.bind (objectId pid) fun itemID =>
  M.bind (Posting.assertPostExists itemID) fun _ =>
  M.bind (CommentOnPost.create itemID user content options) fun created =>
  M.bind (Responses.comment created.2) fun resp =>
  M.pure (created.1, resp)

/-- `PATCH /posts/:pid/comments/:id` (routes.ts lines 134-140). -/
def updateCommentOnPost (id : String) (content : Option String) (options : Option String) :
    M String :=
  M.bind Sessioning.getUser fun user =>
  M.bind (objectId id) fun oid =>
  M.bind (CommentOnPost.assertAuthorIsUser oid user) fun _ =>
  CommentOnPost.update oid content options

/-- `DELETE /posts/:pid/comments/:id` (routes.ts lines 142-148). -/
def deleteCommentOnPost (id : String) : M String :=
  M.bind Sessioning.getUser fun user =>
  M.bind (objectId id) fun oid =>
  M.bind (CommentOnPost.assertAuthorIsUser oid user) fun _ =>
  CommentOnPost.delete oid

/-- `GET /users/:username/likes` (routes.ts lines 150-154). -/
def getLikes (username : String) : M (List LikeDoc) :=
  M.bind (Authing.getUserByUsername username) fun u =>
  LikeOnPost.getLikesByUser u.id

/-- `GET /posts/:pid/likes` (routes.ts lines 156-159). -/
def getNumLikesOnPost (pid : String) : M Nat :=
  M.bind (objectId pid) fun oid =>
  LikeOnPost.getNumLikes oid

/-- `POST /posts/:pid/likes` (routes.ts lines 161-168): assert the parent
post exists, then add the like. -/
def addLikeOnPost (pid : String) : M (String × LikeResp) :=
  M.bind Sessioning.getUser fun user =>
  M.bind (objectId pid) fun oid =>
  M.bind (Posting.assertPostExists oid) fun _ =>
  M.bind (LikeOnPost.addLike oid user) fun liked =>
  M.bind (Responses.like liked.2) fun resp =>
  M.pure (liked.1, resp)

/-- `DELETE /posts/:pid/likes` (routes.ts lines 170-176). -/
def removeLikeOnPost (pid : String) : M String :=
  M.bind Sessioning.getUser fun user =>
  M.bind (objectId pid) fun oid =>
  M.bind (Posting.assertPostExists oid) fun _ =>
  LikeOnPost.removeLike oid user

/-- `GET /friends` (routes.ts lines 179-183). -/
def getFriends : M (List String) :=
  M.bind Sessioning.getUser fun user =>
  M.bind (Friending.getFriends user) fun fs =>
  Authing.idsToUsernames fs

/-- `DELETE /friends/:friend` (routes.ts lines 185-190). -/
def removeFriend (friend : String) : M String :=
  M.bind Sessioning.getUser fun user =>
  M.bind (Authing.getUserByUsername friend) fun f =>
  Friending.removeFriend user f.id

/-- `GET /friend/requests` (routes.ts lines 192-196). -/
def getRequests : M (List (String × String × ReqStatus)) :=
  M.bind Sessioning.getUser fun user =>
  M.bind (Friending.getRequests user) fun rs =>
  Responses.friendRequests rs

/-- `POST /friend/requests/:to` (routes.ts lines 198-203). -/
def sendFriendRequest (toName : String) : M String :=
  M.bind Sessioning.getUser fun user =>
  M.bind (Authing.getUserByUsername toName) fun toU =>
  Friending.sendRequest user toU.id

/-- `DELETE /friend/requests/:to` (routes.ts lines 205-210). -/
def removeFriendRequest (toName : String) : M String :=
  M.bind Sessioning.getUser fun user =>
  M.bind (Authing.getUserByUsername toName) fun toU =>
  Friending.removeRequest user toU.id

/-- `PUT /friend/accept/:from` (routes.ts lines 212-217). -/
def acceptFriendRequest (fromName : String) : M String :=
  M.bind Sessioning.getUser fun user =>
  M.bind (Authing.getUserByUsername fromName) fun fromU =>
  Friending.acceptRequest fromU.id user

/-- `PUT /friend/reject/:from` (routes.ts lines 219-224). -/
def rejectFriendRequest (fromName : String) : M String :=
  M.bind Sessioning.getUser fun user =>
  M.bind (Authing.getUserByUsername fromName) fun fromU =>
  Friending.rejectRequest fromU.id user

end Routes

/-- Every mutating handler other than `logIn` and `createUser` fails with
NotAuthenticated, leaving the state unchanged, when run in state `st`. -/
def mutatingFailNotAuthenticated (st : St) : Prop :=
  (∀ u, Routes.updateUsername u st = (Except.error Err.notAuthenticated, st)) ∧
  (∀ c n, Routes.updatePassword c n st = (Except.error Err.notAuthenticated, st)) ∧
  (Routes.deleteUser st = (Except.error Err.notAuthenticated, st)) ∧
  (Routes.logOut st = (Except.error Err.notAuthenticated, st)) ∧
  (∀ c o, Routes.createPost c o st = (Except.error Err.notAuthenticated, st)) ∧
  (∀ i c o, Routes.updatePost i c o st = (Except.error Err.notAuthenticated, st)) ∧
  (∀ i, Routes.deletePost i st = (Except.error Err.notAuthenticated, st)) ∧
  (∀ p c o, Routes.createCommentOnPost p c o st = (Except.error Err.notAuthenticated, st)) ∧
  (∀ i c o, Routes.updateCommentOnPost i c o st = (Except.error Err.notAuthenticated, st)) ∧
  (∀ i, Routes.deleteCommentOnPost i st = (Except.error Err.notAuthenticated, st)) ∧
  (∀ p, Routes.addLikeOnPost p st = (Except.error Err.notAuthenticated, st)) ∧
  (∀ p, Routes.removeLikeOnPost p st = (Except.error Err.notAuthenticated, st)) ∧
  (∀ f, Routes.removeFriend f st = (Except.error Err.notAuthenticated, st)) ∧
  (∀ t, Routes.sendFriendRequest t st = (Except.error Err.notAuthenticated, st)) ∧
  (∀ t, Routes.removeFriendRequest t st = (Except.error Err.notAuthenticated, st)) ∧
  (∀ f, Routes.acceptFriendRequest f st = (Except.error Err.notAuthenticated, st)) ∧
  (∀ f, Routes.rejectFriendRequest f st = (Except.error Err.notAuthenticated, st))

/-- The session-reading handlers also fail with NotAuthenticated in state
`st`. -/
def authReadsFailNotAuthenticated (st : St) : Prop :=
  (Routes.getSessionUser st = (Except.error Err.notAuthenticated, st)) ∧
  (Routes.getFriends st = (Except.error Err.notAuthenticated, st)) ∧
  (Routes.getRequests st = (Except.error Err.notAuthenticated, st))

theorem mutating_fail_of_loggedOut (st : St) (h : st.session = none) :
    mutatingFailNotAuthenticated st := by
  unfold mutatingFailNotAuthenticated
  refine ⟨?_, ?_, ?_, ?_, ?_, ?_, ?_, ?_, ?_, ?_, ?_, ?_, ?_, ?_, ?_, ?_, ?_⟩ <;>
    simp [Routes.updateUsername, Routes.updatePassword, Routes.deleteUser, Routes.logOut,
      Routes.createPost, Routes.updatePost, Routes.deletePost, Routes.createCommentOnPost,
      Routes.updateCommentOnPost, Routes.deleteCommentOnPost, Routes.addLikeOnPost,
      Routes.removeLikeOnPost, Routes.removeFriend, Routes.sendFriendRequest,
      Routes.removeFriendRequest, Routes.acceptFriendRequest, Routes.rejectFriendRequest,
      M.bind, Sessioning.getUser, Sessioning.end_, Sessioning.isLoggedIn, h]

theorem authReads_fail_of_loggedOut (st : St) (h : st.session = none) :
    authReadsFailNotAuthenticated st := by
  unfold authReadsFailNotAuthenticated
  refine ⟨?_, ?_, ?_⟩ <;>
    simp [Routes.getSessionUser, Routes.getFriends, Routes.getRequests,
      M.bind, Sessioning.getUser, h]

/-- An empty, unauthenticated state. -/
def stLoggedOut : St := ⟨none, [], [], [], [], [], [], 0⟩

/-- A state whose only user is alice (id 0, password "pw"), with the
session bound to her. -/
def stAlice : St := ⟨some 0, [⟨0, "alice", "pw"⟩], [], [], [], [], [], 1⟩

/-- C6: for every unauthenticated session, every mutating handler other
than `logIn` and `createUser` fails with NotAuthenticated and leaves the
state unchanged, so no mutating domain operation is invoked. -/
theorem C6_unauthenticated_mutations_fail :
    ∀ st : St, st.session = none → mutatingFailNotAuthenticated st :=
  fun st h => mutating_fail_of_loggedOut st h

theorem C6_witness : mutatingFailNotAuthenticated stLoggedOut :=
  C6_unauthenticated_mutations_fail stLoggedOut rfl

theorem deleteUser_ends_session (st : St) (u : Nat) (h : st.session = some u) :
    (Routes.deleteUser st).2.session = none := by
  simp only [Routes.deleteUser, M.bind, Sessioning.getUser, Sessioning.end_,
    Sessioning.isLoggedIn, h, Authing.delete]
  split <;> rfl

/-- C2: for every authenticated session, a call to the `deleteUser` handler
terminates the session: afterwards every mutating handler and every
session-reading handler fails with NotAuthenticated. -/
theorem C2_deleteUser_terminates_session :
    ∀ (st : St) (u : Nat), st.session = some u →
      (Routes.deleteUser st).2.session = none ∧
      mutatingFailNotAuthenticated (Routes.deleteUser st).2 ∧
      authReadsFailNotAuthenticated (Routes.deleteUser st).2 :=
  fun st u h =>
    ⟨deleteUser_ends_session st u h,
     mutating_fail_of_loggedOut _ (deleteUser_ends_session st u h),
     authReads_fail_of_loggedOut _ (deleteUser_ends_session st u h)⟩

theorem C2_witness :
    (Routes.deleteUser stAlice).2.session = none ∧
    mutatingFailNotAuthenticated (Routes.deleteUser stAlice).2 ∧
    authReadsFailNotAuthenticated (Routes.deleteUser stAlice).2 :=
  C2_deleteUser_terminates_session stAlice 0 rfl

/-- C10: `deleteUser` ends the session before invoking the account
deletion: the session is terminated even when the deletion fails, and on a
failing deletion the caller is left logged out with the user store
untouched (no atomicity between the two steps). -/
theorem C10_deleteUser_not_atomic :
    (∀ (st : St) (u : Nat), st.session = some u →
       (Routes.deleteUser st).2.session = none) ∧
    (∀ (st : St) (u : Nat), st.session = some u →
       st.users.any (fun v => v.id == u) = false →
       Routes.deleteUser st = (Except.error Err.notFound, { st with session := none })) := by
  constructor
  · exact fun st u h => deleteUser_ends_session st u h
  · intro st u h hu
    simp [Routes.deleteUser, M.bind, Sessioning.getUser, Sessioning.end_,
      Sessioning.isLoggedIn, h, Authing.delete, hu]

/-- A state whose session is bound to user 5 although no user record with
id 5 exists. -/
def stGhost : St := ⟨some 5, [⟨0, "alice", "pw"⟩], [], [], [], [], [], 1⟩

theorem C10_witness :
    (Routes.deleteUser stGhost).2.session = none ∧
    Routes.deleteUser stGhost = (Except.error Err.notFound, { stGhost with session := none }) :=
  ⟨C10_deleteUser_not_atomic.1 stGhost 5 rfl,
   C10_deleteUser_not_atomic.2 stGhost 5 rfl rfl⟩

/-- C1 counterexample: with the session already bound to alice, `logIn`
with the username of alice but a wrong password fails with the credential
failure (NotFound), not with the already-logged-in condition, because
`routes.ts` authenticates the credentials before touching the session. -/
theorem C1_counterexample :
    (Routes.logIn "alice" "wrong" stAlice).1 = Except.error Err.notFound ∧
    Err.notFound ≠ Err.alreadyAuthenticated :=
  ⟨rfl, by decide⟩

/-- C1 (amended): for every session already bound to a user, `logIn` fails
and does not rebind the session; the failure is the already-logged-in
condition whenever the credentials authenticate (otherwise it is the
credential failure); and a successful `logIn` happens only from an
unauthenticated session. -/
theorem C1_login_only_when_loggedOut :
    (∀ (st : St) (uid : Nat) (username password : String), st.session = some uid →
       (Routes.logIn username password st).2.session = some uid ∧
       (∃ e, (Routes.logIn username password st).1 = Except.error e) ∧
       (∀ u, (Authing.authenticate username password st).1 = Except.ok u →
          (Routes.logIn username password st).1 = Except.error Err.alreadyAuthenticated)) ∧
    (∀ (st : St) (username password : String) (r : String),
       (Routes.logIn username password st).1 = Except.ok r → st.session = none) := by
  constructor
  · intro st uid username password h
    rcases hfind : st.users.find? (fun u => u.username == username && u.password == password) with
      _ | u
    · refine ⟨?_, ⟨Err.notFound, ?_⟩, ?_⟩ <;>
        simp [Routes.logIn, M.bind, M.pure, Authing.authenticate, hfind, h,
          Sessioning.start, Sessioning.isLoggedOut]
    · refine ⟨?_, ⟨Err.alreadyAuthenticated, ?_⟩, ?_⟩ <;>
        simp [Routes.logIn, M.bind, M.pure, Authing.authenticate, hfind, h,
          Sessioning.start, Sessioning.isLoggedOut]
  · intro st username password r hok
    rcases hfind : st.users.find? (fun u => u.username == username && u.password == password) with
      _ | u
    · simp [Routes.logIn, M.bind, M.pure, Authing.authenticate, hfind] at hok
    · rcases hs : st.session with _ | v
      · rfl
      · simp [Routes.logIn, M.bind, M.pure, Authing.authenticate, hfind,
          Sessioning.start, Sessioning.isLoggedOut, hs] at hok

theorem C1_witness :
    ((Routes.logIn "alice" "pw" stAlice).2.session = some 0 ∧
     (∃ e, (Routes.logIn "alice" "pw" stAlice).1 = Except.error e) ∧
     (∀ u, (Authing.authenticate "alice" "pw" stAlice).1 = Except.ok u →
        (Routes.logIn "alice" "pw" stAlice).1 = Except.error Err.alreadyAuthenticated)) :=
  C1_login_only_when_loggedOut.1 stAlice 0 "alice" "pw" rfl

/-- C3: for every authenticated session, creating a comment under a post id
that does not resolve to an existing post fails with NotFound and leaves
the state — in particular the comment store — unchanged. -/
theorem C3_comment_on_missing_post :
    ∀ (st : St) (u : Nat) (pid : String) (oid : Nat) (c : String) (o : Option String),
      st.session = some u → parseObjectId pid = some oid → postExists st oid = false →
      Routes.createCommentOnPost pid c o st = (Except.error Err.notFound, st) ∧
      (Routes.createCommentOnPost pid c o st).2.comments = st.comments := by
  intro st u pid oid c o h hp hex
  have he : Routes.createCommentOnPost pid c o st = (Except.error Err.notFound, st) := by
    simp [Routes.createCommentOnPost, M.bind, Sessioning.getUser, h, objectId, hp,
      Posting.assertPostExists, hex]
  exact ⟨he, by rw [he]⟩

theorem C3_witness :
    Routes.createCommentOnPost "000000000000000000000007" "hi" none stAlice =
      (Except.error Err.notFound, stAlice) ∧
    (Routes.createCommentOnPost "000000000000000000000007" "hi" none stAlice).2.comments =
      stAlice.comments :=
  C3_comment_on_missing_post stAlice 0 "000000000000000000000007" 7 "hi" none rfl rfl rfl

/-- C4: only the author of a post can update or delete it.  A caller whose
id differs from the stored author id gets NotAuthorized with the state
unchanged; an unresolved post id gets NotFound with the state unchanged;
and whenever `updatePost` or `deletePost` succeeds, the session user was
the stored author. -/
theorem C4_only_author_updates_deletes :
    (∀ (st : St) (u : Nat) (idS : String) (oid : Nat) (p : PostDoc)
       (c o : Option String),
       st.session = some u → parseObjectId idS = some oid →
       findPost st oid = some p → (p.author == u) = false →
       Routes.updatePost idS c o st = (Except.error Err.notAuthorized, st) ∧
       Routes.deletePost idS st = (Except.error Err.notAuthorized, st)) ∧
    (∀ (st : St) (u : Nat) (idS : String) (oid : Nat) (c o : Option String),
       st.session = some u → parseObjectId idS = some oid →
       findPost st oid = none →
       Routes.updatePost idS c o st = (Except.error Err.notFound, st) ∧
       Routes.deletePost idS st = (Except.error Err.notFound, st)) ∧
    (∀ (st : St) (idS : String) (c o : Option String) (r : String) (st2 : St),
       Routes.updatePost idS c o st = (Except.ok r, st2) →
       ∃ u oid p, st.session = some u ∧ parseObjectId idS = some oid ∧
         findPost st oid = some p ∧ p.author = u) ∧
    (∀ (st : St) (idS : String) (r : String) (st2 : St),
       Routes.deletePost idS st = (Except.ok r, st2) →
       ∃ u oid p, st.session = some u ∧ parseObjectId idS = some oid ∧
         findPost st oid = some p ∧ p.author = u) := by
  refine ⟨?_, ?_, ?_, ?_⟩
  · intro st u idS oid p c o h hp hf hb
    constructor <;>
      simp [Routes.updatePost, Routes.deletePost, M.bind, Sessioning.getUser, h,
        objectId, hp, Posting.assertAuthorIsUser, hf, hb]
  · intro st u idS oid c o h hp hf
    constructor <;>
      simp [Routes.updatePost, Routes.deletePost, M.bind, Sessioning.getUser, h,
        objectId, hp, Posting.assertAuthorIsUser, hf]
  · intro st idS c o r st2 hok
    rcases hs : st.session with _ | u
    · simp [Routes.updatePost, M.bind, Sessioning.getUser, hs] at hok
    · rcases hp : parseObjectId idS with _ | oid
      · simp [Routes.updatePost, M.bind, Sessioning.getUser, hs, objectId, hp] at hok
      · rcases hf : findPost st oid with _ | p
        · simp [Routes.updatePost, M.bind, Sessioning.getUser, hs, objectId, hp,
            Posting.assertAuthorIsUser, hf] at hok
        · cases hb : p.author == u
          · simp [Routes.updatePost, M.bind, Sessioning.getUser, hs, objectId, hp,
              Posting.assertAuthorIsUser, hf, hb] at hok
          · exact ⟨u, oid, p, rfl, rfl, hf, eq_of_beq hb⟩
  · intro st idS r st2 hok
    rcases hs : st.session with _ | u
    · simp [Routes.deletePost, M.bind, Sessioning.getUser, hs] at hok
    · rcases hp : parseObjectId idS with _ | oid
      · simp [Routes.deletePost, M.bind, Sessioning.getUser, hs, objectId, hp] at hok
      · rcases hf : findPost st oid with _ | p
        · simp [Routes.deletePost, M.bind, Sessioning.getUser, hs, objectId, hp,
            Posting.assertAuthorIsUser, hf] at hok
        · cases hb : p.author == u
          · simp [Routes.deletePost, M.bind, Sessioning.getUser, hs, objectId, hp,
              Posting.assertAuthorIsUser, hf, hb] at hok
          · exact ⟨u, oid, p, rfl, rfl, hf, eq_of_beq hb⟩

/-- Two users; bob (id 1) holds the session, alice (id 0) authored post 2. -/
def stTwoUsers : St :=
  ⟨some 1, [⟨0, "alice", "pw"⟩, ⟨1, "bob", "pw"⟩], [⟨2, 0, "hello", none⟩], [], [], [], [], 3⟩

theorem C4_witness :
    (Routes.updatePost "000000000000000000000002" (some "x") none stTwoUsers =
       (Except.error Err.notAuthorized, stTwoUsers) ∧
     Routes.deletePost "000000000000000000000002" stTwoUsers =
       (Except.error Err.notAuthorized, stTwoUsers)) ∧
    (Routes.updatePost "000000000000000000000009" (some "x") none stTwoUsers =
       (Except.error Err.notFound, stTwoUsers) ∧
     Routes.deletePost "000000000000000000000009" stTwoUsers =
       (Except.error Err.notFound, stTwoUsers)) :=
  ⟨C4_only_author_updates_deletes.1 stTwoUsers 1 "000000000000000000000002" 2
     ⟨2, 0, "hello", none⟩ (some "x") none rfl rfl rfl rfl,
   C4_only_author_updates_deletes.2.1 stTwoUsers 1 "000000000000000000000009" 9
     (some "x") none rfl rfl rfl⟩

/-- C7: when an id path parameter is not a well-formed id string, every
handler that parses it fails with the route-layer parse failure `badId`
and leaves the state unchanged, so the malformed id never reaches a domain
module operation (domain modules never raise `badId`). -/
theorem C7_malformed_ids_rejected :
    ∀ (st : St) (s : String), parseObjectId s = none →
      (Routes.getNumLikesOnPost s st = (Except.error Err.badId, st)) ∧
      (Routes.getCommentsOnPosts s st = (Except.error Err.badId, st)) ∧
      (∀ u, st.session = some u →
        (∀ c o, Routes.updatePost s c o st = (Except.error Err.badId, st)) ∧
        (Routes.deletePost s st = (Except.error Err.badId, st)) ∧
        (∀ c o, Routes.createCommentOnPost s c o st = (Except.error Err.badId, st)) ∧
        (∀ c o, Routes.updateCommentOnPost s c o st = (Except.error Err.badId, st)) ∧
        (Routes.deleteCommentOnPost s st = (Except.error Err.badId, st)) ∧
        (Routes.addLikeOnPost s st = (Except.error Err.badId, st)) ∧
        (Routes.removeLikeOnPost s st = (Except.error Err.badId, st))) := by
  intro st s hp
  refine ⟨?_, ?_, ?_⟩
  · simp [Routes.getNumLikesOnPost, M.bind, objectId, hp]
  · simp [Routes.getCommentsOnPosts, M.bind, objectId, hp]
  · intro u hu
    refine ⟨?_, ?_, ?_, ?_, ?_, ?_, ?_⟩ <;>
      simp [Routes.updatePost, Routes.deletePost, Routes.createCommentOnPost,
        Routes.updateCommentOnPost, Routes.deleteCommentOnPost, Routes.addLikeOnPost,
        Routes.removeLikeOnPost, M.bind, Sessioning.getUser, hu, objectId, hp]

theorem C7_witness :
    (Routes.getNumLikesOnPost "not-an-id" stAlice = (Except.error Err.badId, stAlice)) ∧
    (Routes.getCommentsOnPosts "not-an-id" stAlice = (Except.error Err.badId, stAlice)) ∧
    (∀ u, stAlice.session = some u →
      (∀ c o, Routes.updatePost "not-an-id" c o stAlice = (Except.error Err.badId, stAlice)) ∧
      (Routes.deletePost "not-an-id" stAlice = (Except.error Err.badId, stAlice)) ∧
      (∀ c o, Routes.createCommentOnPost "not-an-id" c o stAlice =
         (Except.error Err.badId, stAlice)) ∧
      (∀ c o, Routes.updateCommentOnPost "not-an-id" c o stAlice =
         (Except.error Err.badId, stAlice)) ∧
      (Routes.deleteCommentOnPost "not-an-id" stAlice = (Except.error Err.badId, stAlice)) ∧
      (Routes.addLikeOnPost "not-an-id" stAlice = (Except.error Err.badId, stAlice)) ∧
      (Routes.removeLikeOnPost "not-an-id" stAlice = (Except.error Err.badId, stAlice))) :=
  C7_malformed_ids_rejected stAlice "not-an-id" rfl

theorem likeExists_eq_false_of_count_zero (st : St) (oid u : Nat)
    (h : likePairCount st oid u = 0) : likeExists st oid u = false := by
  unfold likePairCount at h
  unfold likeExists
  rw [List.length_eq_zero] at h
  rw [Bool.eq_false_iff]
  intro hany
  rw [List.any_eq_true] at hany
  obtain ⟨l, hl, hpred⟩ := hany
  have hmem : l ∈ st.likes.filter (fun l => l.item == oid && l.liker == u) :=
    List.mem_filter.mpr ⟨hl, hpred⟩
  rw [h] at hmem
  exact absurd hmem (List.not_mem_nil l)

/-- C9: liking the same post twice by the same user: from a state with no
like by the user on the post, the first `addLikeOnPost` succeeds and leaves
exactly one like record for the (post, user) pair; the second call by the
same user fails with ConflictError, changes nothing, and exactly one like
record still persists. -/
theorem C9_duplicate_like_conflicts :
    ∀ (st : St) (u : Nat) (pid : String) (oid : Nat),
      st.session = some u → parseObjectId pid = some oid →
      postExists st oid = true → likePairCount st oid u = 0 →
      (∃ v, (Routes.addLikeOnPost pid st).1 = Except.ok v) ∧
      likePairCount (Routes.addLikeOnPost pid st).2 oid u = 1 ∧
      (Routes.addLikeOnPost pid (Routes.addLikeOnPost pid st).2).1 =
        Except.error Err.conflictError ∧
      (Routes.addLikeOnPost pid (Routes.addLikeOnPost pid st).2).2 =
        (Routes.addLikeOnPost pid st).2 ∧
      likePairCount (Routes.addLikeOnPost pid (Routes.addLikeOnPost pid st).2).2 oid u = 1 := by
  intro st u pid oid h hp hpost hcount
  have hex : likeExists st oid u = false := likeExists_eq_false_of_count_zero st oid u hcount
  have hnil : st.likes.filter (fun l => l.item == oid && l.liker == u) = [] := by
    unfold likePairCount at hcount
    exact List.length_eq_zero.mp hcount
  set st1 : St :=
    { st with likes := st.likes ++ [⟨st.nextId, oid, u⟩], nextId := st.nextId + 1 } with hst1
  have h2 : (Routes.addLikeOnPost pid st).2 = st1 := by
    rw [hst1]
    simp [Routes.addLikeOnPost, M.bind, M.pure, Sessioning.getUser, h, objectId, hp,
      Posting.assertPostExists, hpost, LikeOnPost.addLike, hex, Responses.like]
  have hsess1 : st1.session = some u := h
  have hpost1 : postExists st1 oid = true := hpost
  have hex1 : likeExists st1 oid u = true := by
    rw [hst1]
    simp [likeExists, List.any_append]
  have hpost2 : st.posts.any (fun p => p.id == oid) = true := hpost
  have hex2 : st.likes.any (fun l => l.item == oid && l.liker == u) = false := hex
  have hconf : Routes.addLikeOnPost pid st1 = (Except.error Err.conflictError, st1) := by
    simp [Routes.addLikeOnPost, M.bind, M.pure, Sessioning.getUser, h, objectId, hp,
      Posting.assertPostExists, postExists, hpost2, LikeOnPost.addLike, likeExists,
      List.any_append, hex2]
  have hcount1 : likePairCount st1 oid u = 1 := by
    rw [hst1]
    simp [likePairCount, List.filter_append, hnil]
  refine ⟨?_, ?_, ?_, ?_, ?_⟩
  · exact ⟨("Like added!", ⟨st.nextId, oid, usernameOf st u⟩), by
      simp [Routes.addLikeOnPost, M.bind, M.pure, Sessioning.getUser, h, objectId, hp,
        Posting.assertPostExists, hpost, LikeOnPost.addLike, hex, Responses.like,
        usernameOf, findUserById]⟩
  · rw [h2]
    exact hcount1
  · rw [h2, hconf]
  · rw [h2, hconf]
  · rw [h2, hconf]
    exact hcount1

/-- A state where alice (id 0) is logged in and has authored post 1, with
no likes and no comments yet. -/
def stPosted : St := ⟨some 0, [⟨0, "alice", "pw"⟩], [⟨1, 0, "hello", none⟩], [], [], [], [], 2⟩

theorem C9_witness :
    (∃ v, (Routes.addLikeOnPost "000000000000000000000001" stPosted).1 = Except.ok v) ∧
    likePairCount (Routes.addLikeOnPost "000000000000000000000001" stPosted).2 1 0 = 1 ∧
    (Routes.addLikeOnPost "000000000000000000000001"
       (Routes.addLikeOnPost "000000000000000000000001" stPosted).2).1 =
      Except.error Err.conflictError ∧
    (Routes.addLikeOnPost "000000000000000000000001"
       (Routes.addLikeOnPost "000000000000000000000001" stPosted).2).2 =
      (Routes.addLikeOnPost "000000000000000000000001" stPosted).2 ∧
    likePairCount (Routes.addLikeOnPost "000000000000000000000001"
       (Routes.addLikeOnPost "000000000000000000000001" stPosted).2).2 1 0 = 1 :=
  C9_duplicate_like_conflicts stPosted 0 "000000000000000000000001" 1 rfl rfl rfl rfl

theorem enrichPosts_spec (st : St) (resps : List PostResp) :
    Routes.enrichPosts resps st =
      (Except.ok (resps.map (fun p =>
        (⟨p.id, p.author, p.content, p.options,
          likeCount st p.id, commentsByItem st p.id⟩ : EnrichedPost))), st) := by
  induction resps with
  | nil => rfl
  | cons p rest ih =>
    simp [Routes.enrichPosts, M.bind, M.pure, LikeOnPost.getNumLikes,
      CommentOnPost.getByItem, ih]

theorem getPosts_eq (author : Option String) (st : St) :
    (∃ ps : List PostDoc, Routes.getPosts author st =
       (Except.ok (ps.map (fun p =>
          (⟨p.id, usernameOf st p.author, p.content, p.options,
            likeCount st p.id, commentsByItem st p.id⟩ : EnrichedPost))), st)) ∨
    Routes.getPosts author st = (Except.error Err.notFound, st) := by
  rcases author with _ | a
  · left
    exact ⟨st.posts, by simp [Routes.getPosts, M.bind, Posting.getPosts, Responses.posts,
      enrichPosts_spec, List.map_map, Function.comp]⟩
  · by_cases ha : a = ""
    · left
      refine ⟨st.posts, ?_⟩
      simp [Routes.getPosts, M.bind, Posting.getPosts, Responses.posts,
        enrichPosts_spec, List.map_map, Function.comp, ha]
    · have ha2 : (a == "") = false := by
        simp [ha]
      rcases hf : findUserByName st a with _ | u
      · right
        simp [Routes.getPosts, M.bind, Authing.getUserByUsername, hf, ha2]
      · left
        refine ⟨st.posts.filter (fun p => p.author == u.id), ?_⟩
        simp [Routes.getPosts, M.bind, Authing.getUserByUsername, hf, ha2,
          Posting.getByAuthor, Responses.posts, enrichPosts_spec, List.map_map, Function.comp]

/-- C5: every post returned by `getPosts` carries a `likes` field equal to
the like count the Liking module reports for its id and a `comments` field
equal to the comment list the Commenting module reports for its id; and a
freshly created post is listed with likes = 0 and comments = []. -/
theorem C5_getPosts_enriched :
    (∀ (st : St) (author : Option String) (r : List EnrichedPost) (st2 : St),
       Routes.getPosts author st = (Except.ok r, st2) →
       st2 = st ∧ ∀ e ∈ r,
         (LikeOnPost.getNumLikes e.id st).1 = Except.ok e.likes ∧
         (CommentOnPost.getByItem e.id st).1 = Except.ok e.comments) ∧
    (Routes.getPosts (some "alice") (Routes.createPost "hello" none stAlice).2 =
       (Except.ok [⟨1, "alice", "hello", none, 0, []⟩],
        (Routes.createPost "hello" none stAlice).2)) := by
  constructor
  · intro st author r st2 hok
    rcases getPosts_eq author st with ⟨ps, he⟩ | he
    · rw [he] at hok
      injection hok with h1 h2
      injection h1 with h1
      subst h1
      subst h2
      refine ⟨rfl, ?_⟩
      intro e he2
      obtain ⟨p, hp, rfl⟩ := List.mem_map.mp he2
      simp [LikeOnPost.getNumLikes, CommentOnPost.getByItem]
    · rw [he] at hok
      exact absurd hok (by simp)
  · rfl

theorem C5_witness :
    (Routes.createPost "hello" none stAlice).2 = (Routes.createPost "hello" none stAlice).2 ∧
    ∀ e ∈ [(⟨1, "alice", "hello", none, 0, []⟩ : EnrichedPost)],
      (LikeOnPost.getNumLikes e.id (Routes.createPost "hello" none stAlice).2).1 =
        Except.ok e.likes ∧
      (CommentOnPost.getByItem e.id (Routes.createPost "hello" none stAlice).2).1 =
        Except.ok e.comments :=
  C5_getPosts_enriched.1 (Routes.createPost "hello" none stAlice).2 (some "alice")
    [⟨1, "alice", "hello", none, 0, []⟩] (Routes.createPost "hello" none stAlice).2 rfl

theorem getSessionUser_error_iff (st : St) (e : Err) :
    (Routes.getSessionUser st).1 = Except.error e ↔
      ((Sessioning.getUser st).1 = Except.error e ∨
       ∃ u, (Sessioning.getUser st).1 = Except.ok u ∧
         (Authing.getUserById u st).1 = Except.error e) := by
  cases hs : st.session <;>
    simp [Routes.getSessionUser, M.bind, Sessioning.getUser, hs]

theorem getUsers_error_iff (st : St) (e : Err) :
    (Routes.getUsers st).1 = Except.error e ↔
      (Authing.getUsers st).1 = Except.error e := Iff.rfl

theorem getUser_error_iff (st : St) (e : Err) (username : String) :
    (Routes.getUser username st).1 = Except.error e ↔
      (Authing.getUserByUsername username st).1 = Except.error e := Iff.rfl

theorem createUser_error_iff (st : St) (e : Err) (username password : String) :
    (Routes.createUser username password st).1 = Except.error e ↔
      ((Sessioning.isLoggedOut st).1 = Except.error e ∨
       ((Sessioning.isLoggedOut st).1 = Except.ok () ∧
        (Authing.create username password st).1 = Except.error e)) := by
  cases hs : st.session <;>
    simp [Routes.createUser, M.bind, Sessioning.isLoggedOut, hs]

theorem updateUsername_error_iff (st : St) (e : Err) (username : String) :
    (Routes.updateUsername username st).1 = Except.error e ↔
      ((Sessioning.getUser st).1 = Except.error e ∨
       ∃ u, (Sessioning.getUser st).1 = Except.ok u ∧
         (Authing.updateUsername u username st).1 = Except.error e) := by
  cases hs : st.session <;>
    simp [Routes.updateUsername, M.bind, Sessioning.getUser, hs]

theorem updatePassword_error_iff (st : St) (e : Err) (currentPassword newPassword : String) :
    (Routes.updatePassword currentPassword newPassword st).1 = Except.error e ↔
      ((Sessioning.getUser st).1 = Except.error e ∨
       ∃ u, (Sessioning.getUser st).1 = Except.ok u ∧
         (Authing.updatePassword u currentPassword newPassword st).1 = Except.error e) := by
  cases hs : st.session <;>
    simp [Routes.updatePassword, M.bind, Sessioning.getUser, hs]

theorem deleteUser_error_iff (st : St) (e : Err) :
    (Routes.deleteUser st).1 = Except.error e ↔
      ((Sessioning.getUser st).1 = Except.error e ∨
       ∃ u, (Sessioning.getUser st).1 = Except.ok u ∧
         ((Sessioning.end_ st).1 = Except.error e ∨
          ((Sessioning.end_ st).1 = Except.ok () ∧
           (Authing.delete u (Sessioning.end_ st).2).1 = Except.error e))) := by
  cases hs : st.session <;>
    simp [Routes.deleteUser, M.bind, Sessioning.getUser, Sessioning.end_,
      Sessioning.isLoggedIn, hs]

theorem logIn_error_iff (st : St) (e : Err) (username password : String) :
    (Routes.logIn username password st).1 = Except.error e ↔
      ((Authing.authenticate username password st).1 = Except.error e ∨
       ∃ u, (Authing.authenticate username password st).1 = Except.ok u ∧
         (Sessioning.start u.id st).1 = Except.error e) := by
  cases hfind : st.users.find? (fun u => u.username == username && u.password == password)
  · simp [Routes.logIn, M.bind, M.pure, Authing.authenticate, hfind]
  · cases hs : st.session <;>
      simp [Routes.logIn, M.bind, M.pure, Authing.authenticate, hfind,
        Sessioning.start, Sessioning.isLoggedOut, hs]

theorem logOut_error_iff (st : St) (e : Err) :
    (Routes.logOut st).1 = Except.error e ↔
      (Sessioning.end_ st).1 = Except.error e := by
  cases hs : st.session <;>
    simp [Routes.logOut, M.bind, M.pure, Sessioning.end_, Sessioning.isLoggedIn, hs]

theorem getPosts_error_iff (st : St) (e : Err) (author : Option String) :
    (Routes.getPosts author st).1 = Except.error e ↔
      ∃ a, author = some a ∧ (a == "") = false ∧
        (Authing.getUserByUsername a st).1 = Except.error e := by
  rcases author with _ | a
  · simp [Routes.getPosts, M.bind, Posting.getPosts, Responses.posts, enrichPosts_spec]
  · by_cases ha : a = ""
    · subst ha
      simp [Routes.getPosts, M.bind, Posting.getPosts, Responses.posts, enrichPosts_spec]
    · have ha2 : (a == "") = false := by
        simp [ha]
      cases hf : findUserByName st a
      · simp [Routes.getPosts, M.bind, Authing.getUserByUsername, hf, ha2]
        exact fun _ => ha
      · simp [Routes.getPosts, M.bind, Authing.getUserByUsername, hf, ha2,
          Posting.getByAuthor, Responses.posts, enrichPosts_spec]

theorem createPost_error_iff (st : St) (e : Err) (content : String) (options : Option String) :
    (Routes.createPost content options st).1 = Except.error e ↔
      (Sessioning.getUser st).1 = Except.error e := by
  cases hs : st.session <;>
    simp [Routes.createPost, M.bind, M.pure, Sessioning.getUser, hs,
      Posting.create, Responses.post]

theorem updatePost_error_iff (st : St) (e : Err) (idS : String) (c o : Option String) :
    (Routes.updatePost idS c o st).1 = Except.error e ↔
      ((Sessioning.getUser st).1 = Except.error e ∨
       ((∃ u, (Sessioning.getUser st).1 = Except.ok u) ∧
          parseObjectId idS = none ∧ e = Err.badId) ∨
       (∃ u oid, (Sessioning.getUser st).1 = Except.ok u ∧ parseObjectId idS = some oid ∧
          (Posting.assertAuthorIsUser oid u st).1 = Except.error e)) := by
  rcases hs : st.session with _ | u
  · simp [Routes.updatePost, M.bind, Sessioning.getUser, hs]
  · rcases hp : parseObjectId idS with _ | oid
    · simp [Routes.updatePost, M.bind, Sessioning.getUser, hs, objectId, hp, eq_comm]
    · rcases hf : findPost st oid with _ | p
      · simp [Routes.updatePost, M.bind, Sessioning.getUser, hs, objectId, hp,
          Posting.assertAuthorIsUser, hf]
      · cases hb : p.author == u
        · have hb2 : ¬p.author = u := ne_of_beq_false hb
          simp [Routes.updatePost, M.bind, Sessioning.getUser, hs, objectId, hp,
            Posting.assertAuthorIsUser, hf, hb2]
        · have hb2 : p.author = u := eq_of_beq hb
          simp [Routes.updatePost, M.bind, Sessioning.getUser, hs, objectId, hp,
            Posting.assertAuthorIsUser, hf, hb2, Posting.update]

theorem deletePost_error_iff (st : St) (e : Err) (idS : String) :
    (Routes.deletePost idS st).1 = Except.error e ↔
      ((Sessioning.getUser st).1 = Except.error e ∨
       ((∃ u, (Sessioning.getUser st).1 = Except.ok u) ∧
          parseObjectId idS = none ∧ e = Err.badId) ∨
       (∃ u oid, (Sessioning.getUser st).1 = Except.ok u ∧ parseObjectId idS = some oid ∧
          (Posting.assertAuthorIsUser oid u st).1 = Except.error e)) := by
  rcases hs : st.session with _ | u
  · simp [Routes.deletePost, M.bind, Sessioning.getUser, hs]
  · rcases hp : parseObjectId idS with _ | oid
    · simp [Routes.deletePost, M.bind, Sessioning.getUser, hs, objectId, hp, eq_comm]
    · rcases hf : findPost st oid with _ | p
      · simp [Routes.deletePost, M.bind, Sessioning.getUser, hs, objectId, hp,
          Posting.assertAuthorIsUser, hf]
      · cases hb : p.author == u
        · have hb2 : ¬p.author = u := ne_of_beq_false hb
          simp [Routes.deletePost, M.bind, Sessioning.getUser, hs, objectId, hp,
            Posting.assertAuthorIsUser, hf, hb2]
        · have hb2 : p.author = u := eq_of_beq hb
          simp [Routes.deletePost, M.bind, Sessioning.getUser, hs, objectId, hp,
            Posting.assertAuthorIsUser, hf, hb2, Posting.delete]

theorem getCommentsOnPosts_error_iff (st : St) (e : Err) (pid : String) :
    (Routes.getCommentsOnPosts pid st).1 = Except.error e ↔
      (objectId pid st).1 = Except.error e := by
  cases hp : parseObjectId pid <;>
    simp [Routes.getCommentsOnPosts, M.bind, objectId, hp,
      CommentOnPost.getByItem, Responses.comments]

theorem createCommentOnPost_error_iff (st : St) (e : Err) (pid : String)
    (content : String) (options : Option String) :
    (Routes.createCommentOnPost pid content options st).1 = Except.error e ↔
      ((Sessioning.getUser st).1 = Except.error e ∨
       ((∃ u, (Sessioning.getUser st).1 = Except.ok u) ∧
          parseObjectId pid = none ∧ e = Err.badId) ∨
       (∃ u oid, (Sessioning.getUser st).1 = Except.ok u ∧ parseObjectId pid = some oid ∧
          (Posting.assertPostExists oid st).1 = Except.error e)) := by
  rcases hs : st.session with _ | u
  · simp [Routes.createCommentOnPost, M.bind, Sessioning.getUser, hs]
  · rcases hp : parseObjectId pid with _ | oid
    · simp [Routes.createCommentOnPost, M.bind, Sessioning.getUser, hs, objectId, hp, eq_comm]
    · cases hpe : postExists st oid
      · simp [Routes.createCommentOnPost, M.bind, Sessioning.getUser, hs, objectId, hp,
          Posting.assertPostExists, hpe]
      · simp [Routes.createCommentOnPost, M.bind, M.pure, Sessioning.getUser, hs, objectId,
          hp, Posting.assertPostExists, hpe, CommentOnPost.create, Responses.comment]

theorem updateCommentOnPost_error_iff (st : St) (e : Err) (idS : String)
    (c o : Option String) :
    (Routes.updateCommentOnPost idS c o st).1 = Except.error e ↔
      ((Sessioning.getUser st).1 = Except.error e ∨
       ((∃ u, (Sessioning.getUser st).1 = Except.ok u) ∧
          parseObjectId idS = none ∧ e = Err.badId) ∨
       (∃ u oid, (Sessioning.getUser st).1 = Except.ok u ∧ parseObjectId idS = some oid ∧
          (CommentOnPost.assertAuthorIsUser oid u st).1 = Except.error e)) := by
  rcases hs : st.session with _ | u
  · simp [Routes.updateCommentOnPost, M.bind, Sessioning.getUser, hs]
  · rcases hp : parseObjectId idS with _ | oid
    · simp [Routes.updateCommentOnPost, M.bind, Sessioning.getUser, hs, objectId, hp, eq_comm]
    · rcases hf : findComment st oid with _ | c0
      · simp [Routes.updateCommentOnPost, M.bind, Sessioning.getUser, hs, objectId, hp,
          CommentOnPost.assertAuthorIsUser, hf]
      · cases hb : c0.author == u
        · have hb2 : ¬c0.author = u := ne_of_beq_false hb
          simp [Routes.updateCommentOnPost, M.bind, Sessioning.getUser, hs, objectId, hp,
            CommentOnPost.assertAuthorIsUser, hf, hb2]
        · have hb2 : c0.author = u := eq_of_beq hb
          simp [Routes.updateCommentOnPost, M.bind, Sessioning.getUser, hs, objectId, hp,
            CommentOnPost.assertAuthorIsUser, hf, hb2, CommentOnPost.update]

theorem deleteCommentOnPost_error_iff (st : St) (e : Err) (idS : String) :
    (Routes.deleteCommentOnPost idS st).1 = Except.error e ↔
      ((Sessioning.getUser st).1 = Except.error e ∨
       ((∃ u, (Sessioning.getUser st).1 = Except.ok u) ∧
          parseObjectId idS = none ∧ e = Err.badId) ∨
       (∃ u oid, (Sessioning.getUser st).1 = Except.ok u ∧ parseObjectId idS = some oid ∧
          (CommentOnPost.assertAuthorIsUser oid u st).1 = Except.error e)) := by
  rcases hs : st.session with _ | u
  · simp [Routes.deleteCommentOnPost, M.bind, Sessioning.getUser, hs]
  · rcases hp : parseObjectId idS with _ | oid
    · simp [Routes.deleteCommentOnPost, M.bind, Sessioning.getUser, hs, objectId, hp, eq_comm]
    · rcases hf : findComment st oid with _ | c0
      · simp [Routes.deleteCommentOnPost, M.bind, Sessioning.getUser, hs, objectId, hp,
          CommentOnPost.assertAuthorIsUser, hf]
      · cases hb : c0.author == u
        · have hb2 : ¬c0.author = u := ne_of_beq_false hb
          simp [Routes.deleteCommentOnPost, M.bind, Sessioning.getUser, hs, objectId, hp,
            CommentOnPost.assertAuthorIsUser, hf, hb2]
        · have hb2 : c0.author = u := eq_of_beq hb
          simp [Routes.deleteCommentOnPost, M.bind, Sessioning.getUser, hs, objectId, hp,
            CommentOnPost.assertAuthorIsUser, hf, hb2, CommentOnPost.delete]

theorem getLikes_error_iff (st : St) (e : Err) (username : String) :
    (Routes.getLikes username st).1 = Except.error e ↔
      (Authing.getUserByUsername username st).1 = Except.error e := by
  cases hf : findUserByName st username <;>
    simp [Routes.getLikes, M.bind, Authing.getUserByUsername, hf, LikeOnPost.getLikesByUser]

theorem getNumLikesOnPost_error_iff (st : St) (e : Err) (pid : String) :
    (Routes.getNumLikesOnPost pid st).1 = Except.error e ↔
      (objectId pid st).1 = Except.error e := by
  cases hp : parseObjectId pid <;>
    simp [Routes.getNumLikesOnPost, M.bind, objectId, hp, LikeOnPost.getNumLikes]

theorem addLikeOnPost_error_iff (st : St) (e : Err) (pid : String) :
    (Routes.addLikeOnPost pid st).1 = Except.error e ↔
      ((Sessioning.getUser st).1 = Except.error e ∨
       ((∃ u, (Sessioning.getUser st).1 = Except.ok u) ∧
          parseObjectId pid = none ∧ e = Err.badId) ∨
       (∃ u oid, (Sessioning.getUser st).1 = Except.ok u ∧ parseObjectId pid = some oid ∧
          ((Posting.assertPostExists oid st).1 = Except.error e ∨
           ((Posting.assertPostExists oid st).1 = Except.ok () ∧
            (LikeOnPost.addLike oid u st).1 = Except.error e)))) := by
  rcases hs : st.session with _ | u
  · simp [Routes.addLikeOnPost, M.bind, Sessioning.getUser, hs]
  · rcases hp : parseObjectId pid with _ | oid
    · simp [Routes.addLikeOnPost, M.bind, Sessioning.getUser, hs, objectId, hp, eq_comm]
    · cases hpe : postExists st oid
      · simp [Routes.addLikeOnPost, M.bind, Sessioning.getUser, hs, objectId, hp,
          Posting.assertPostExists, hpe]
      · cases hle : likeExists st oid u
        · simp [Routes.addLikeOnPost, M.bind, M.pure, Sessioning.getUser, hs, objectId, hp,
            Posting.assertPostExists, hpe, LikeOnPost.addLike, hle, Responses.like]
        · simp [Routes.addLikeOnPost, M.bind, M.pure, Sessioning.getUser, hs, objectId, hp,
            Posting.assertPostExists, hpe, LikeOnPost.addLike, hle]

theorem removeLikeOnPost_error_iff (st : St) (e : Err) (pid : String) :
    (Routes.removeLikeOnPost pid st).1 = Except.error e ↔
      ((Sessioning.getUser st).1 = Except.error e ∨
       ((∃ u, (Sessioning.getUser st).1 = Except.ok u) ∧
          parseObjectId pid = none ∧ e = Err.badId) ∨
       (∃ u oid, (Sessioning.getUser st).1 = Except.ok u ∧ parseObjectId pid = some oid ∧
          ((Posting.assertPostExists oid st).1 = Except.error e ∨
           ((Posting.assertPostExists oid st).1 = Except.ok () ∧
            (LikeOnPost.removeLike oid u st).1 = Except.error e)))) := by
  rcases hs : st.session with _ | u
  · simp [Routes.removeLikeOnPost, M.bind, Sessioning.getUser, hs]
  · rcases hp : parseObjectId pid with _ | oid
    · simp [Routes.removeLikeOnPost, M.bind, Sessioning.getUser, hs, objectId, hp, eq_comm]
    · cases hpe : postExists st oid
      · simp [Routes.removeLikeOnPost, M.bind, Sessioning.getUser, hs, objectId, hp,
          Posting.assertPostExists, hpe]
      · simp [Routes.removeLikeOnPost, M.bind, Sessioning.getUser, hs, objectId, hp,
          Posting.assertPostExists, hpe]

theorem getFriends_error_iff (st : St) (e : Err) :
    (Routes.getFriends st).1 = Except.error e ↔
      (Sessioning.getUser st).1 = Except.error e := by
  cases hs : st.session <;>
    simp [Routes.getFriends, M.bind, Sessioning.getUser, hs,
      Friending.getFriends, Authing.idsToUsernames]

theorem getRequests_error_iff (st : St) (e : Err) :
    (Routes.getRequests st).1 = Except.error e ↔
      (Sessioning.getUser st).1 = Except.error e := by
  cases hs : st.session <;>
    simp [Routes.getRequests, M.bind, Sessioning.getUser, hs,
      Friending.getRequests, Responses.friendRequests]

theorem removeFriend_error_iff (st : St) (e : Err) (friend : String) :
    (Routes.removeFriend friend st).1 = Except.error e ↔
      ((Sessioning.getUser st).1 = Except.error e ∨
       ∃ u, (Sessioning.getUser st).1 = Except.ok u ∧
         ((Authing.getUserByUsername friend st).1 = Except.error e ∨
          ∃ t, (Authing.getUserByUsername friend st).1 = Except.ok t ∧
            (Friending.removeFriend u t.id st).1 = Except.error e)) := by
  rcases hs : st.session with _ | u
  · simp [Routes.removeFriend, M.bind, Sessioning.getUser, hs]
  · cases hf : findUserByName st friend <;>
      simp [Routes.removeFriend, M.bind, Sessioning.getUser, hs,
        Authing.getUserByUsername, hf]

theorem sendFriendRequest_error_iff (st : St) (e : Err) (toName : String) :
    (Routes.sendFriendRequest toName st).1 = Except.error e ↔
      ((Sessioning.getUser st).1 = Except.error e ∨
       ∃ u, (Sessioning.getUser st).1 = Except.ok u ∧
         ((Authing.getUserByUsername toName st).1 = Except.error e ∨
          ∃ t, (Authing.getUserByUsername toName st).1 = Except.ok t ∧
            (Friending.sendRequest u t.id st).1 = Except.error e)) := by
  rcases hs : st.session with _ | u
  · simp [Routes.sendFriendRequest, M.bind, Sessioning.getUser, hs]
  · cases hf : findUserByName st toName <;>
      simp [Routes.sendFriendRequest, M.bind, Sessioning.getUser, hs,
        Authing.getUserByUsername, hf]

theorem removeFriendRequest_error_iff (st : St) (e : Err) (toName : String) :
    (Routes.removeFriendRequest toName st).1 = Except.error e ↔
      ((Sessioning.getUser st).1 = Except.error e ∨
       ∃ u, (Sessioning.getUser st).1 = Except.ok u ∧
         ((Authing.getUserByUsername toName st).1 = Except.error e ∨
          ∃ t, (Authing.getUserByUsername toName st).1 = Except.ok t ∧
            (Friending.removeRequest u t.id st).1 = Except.error e)) := by
  rcases hs : st.session with _ | u
  · simp [Routes.removeFriendRequest, M.bind, Sessioning.getUser, hs]
  · cases hf : findUserByName st toName <;>
      simp [Routes.removeFriendRequest, M.bind, Sessioning.getUser, hs,
        Authing.getUserByUsername, hf]

theorem acceptFriendRequest_error_iff (st : St) (e : Err) (fromName : String) :
    (Routes.acceptFriendRequest fromName st).1 = Except.error e ↔
      ((Sessioning.getUser st).1 = Except.error e ∨
       ∃ u, (Sessioning.getUser st).1 = Except.ok u ∧
         ((Authing.getUserByUsername fromName st).1 = Except.error e ∨
          ∃ t, (Authing.getUserByUsername fromName st).1 = Except.ok t ∧
            (Friending.acceptRequest t.id u st).1 = Except.error e)) := by
  rcases hs : st.session with _ | u
  · simp [Routes.acceptFriendRequest, M.bind, Sessioning.getUser, hs]
  · cases hf : findUserByName st fromName <;>
      simp [Routes.acceptFriendRequest, M.bind, Sessioning.getUser, hs,
        Authing.getUserByUsername, hf]

theorem rejectFriendRequest_error_iff (st : St) (e : Err) (fromName : String) :
    (Routes.rejectFriendRequest fromName st).1 = Except.error e ↔
      ((Sessioning.getUser st).1 = Except.error e ∨
       ∃ u, (Sessioning.getUser st).1 = Except.ok u ∧
         ((Authing.getUserByUsername fromName st).1 = Except.error e ∨
          ∃ t, (Authing.getUserByUsername fromName st).1 = Except.ok t ∧
            (Friending.rejectRequest t.id u st).1 = Except.error e)) := by
  rcases hs : st.session with _ | u
  · simp [Routes.rejectFriendRequest, M.bind, Sessioning.getUser, hs]
  · cases hf : findUserByName st fromName <;>
      simp [Routes.rejectFriendRequest, M.bind, Sessioning.getUser, hs,
        Authing.getUserByUsername, hf]

/-- C8 counterexample: with alice authenticated, `updatePost` called with
the malformed id string "zz" fails even though the only delegated domain
call it made (`Sessioning.getUser`) succeeded: the failure is the
route-layer id-parse error `badId`, which no domain module raises, so a
handler does not fail only when a delegate call fails. -/
theorem C8_counterexample :
    Routes.updatePost "zz" none none stAlice = (Except.error Err.badId, stAlice) ∧
    (Sessioning.getUser stAlice).1 = Except.ok 0 :=
  ⟨rfl, rfl⟩

/-- For a state `st` and an error `e`: every handler of the route layer
fails with `e` exactly when the first failing step of its call sequence
fails with `e` — either a delegated domain call (whose error reaches the
caller unchanged) or, in the handlers that take an id path parameter, the
route-layer id parse (`objectId`, failing with `badId`).  Delegates absent
from a disjunction are exactly the calls that never return an error
(the create/update/delete store writes and the response formatting), so
each equivalence is a complete characterization of that handler's
failures. -/
def errorsPropagateUnchanged (st : St) (e : Err) : Prop :=
  ((Routes.getSessionUser st).1 = Except.error e ↔
     ((Sessioning.getUser st).1 = Except.error e ∨
      ∃ u, (Sessioning.getUser st).1 = Except.ok u ∧
        (Authing.getUserById u st).1 = Except.error e)) ∧
  ((Routes.getUsers st).1 = Except.error e ↔ (Authing.getUsers st).1 = Except.error e) ∧
  (∀ username, (Routes.getUser username st).1 = Except.error e ↔
     (Authing.getUserByUsername username st).1 = Except.error e) ∧
  (∀ username password, (Routes.createUser username password st).1 = Except.error e ↔
     ((Sessioning.isLoggedOut st).1 = Except.error e ∨
      ((Sessioning.isLoggedOut st).1 = Except.ok () ∧
       (Authing.create username password st).1 = Except.error e))) ∧
  (∀ username, (Routes.updateUsername username st).1 = Except.error e ↔
     ((Sessioning.getUser st).1 = Except.error e ∨
      ∃ u, (Sessioning.getUser st).1 = Except.ok u ∧
        (Authing.updateUsername u username st).1 = Except.error e)) ∧
  (∀ currentPassword newPassword,
     (Routes.updatePassword currentPassword newPassword st).1 = Except.error e ↔
     ((Sessioning.getUser st).1 = Except.error e ∨
      ∃ u, (Sessioning.getUser st).1 = Except.ok u ∧
        (Authing.updatePassword u currentPassword newPassword st).1 = Except.error e)) ∧
  ((Routes.deleteUser st).1 = Except.error e ↔
     ((Sessioning.getUser st).1 = Except.error e ∨
      ∃ u, (Sessioning.getUser st).1 = Except.ok u ∧
        ((Sessioning.end_ st).1 = Except.error e ∨
         ((Sessioning.end_ st).1 = Except.ok () ∧
          (Authing.delete u (Sessioning.end_ st).2).1 = Except.error e)))) ∧
  (∀ username password, (Routes.logIn username password st).1 = Except.error e ↔
     ((Authing.authenticate username password st).1 = Except.error e ∨
      ∃ u, (Authing.authenticate username password st).1 = Except.ok u ∧
        (Sessioning.start u.id st).1 = Except.error e)) ∧
  ((Routes.logOut st).1 = Except.error e ↔ (Sessioning.end_ st).1 = Except.error e) ∧
  (∀ author, (Routes.getPosts author st).1 = Except.error e ↔
     ∃ a, author = some a ∧ (a == "") = false ∧
       (Authing.getUserByUsername a st).1 = Except.error e) ∧
  (∀ content options, (Routes.createPost content options st).1 = Except.error e ↔
     (Sessioning.getUser st).1 = Except.error e) ∧
  (∀ idS c o, (Routes.updatePost idS c o st).1 = Except.error e ↔
     ((Sessioning.getUser st).1 = Except.error e ∨
      ((∃ u, (Sessioning.getUser st).1 = Except.ok u) ∧
         parseObjectId idS = none ∧ e = Err.badId) ∨
      (∃ u oid, (Sessioning.getUser st).1 = Except.ok u ∧ parseObjectId idS = some oid ∧
         (Posting.assertAuthorIsUser oid u st).1 = Except.error e))) ∧
  (∀ idS, (Routes.deletePost idS st).1 = Except.error e ↔
     ((Sessioning.getUser st).1 = Except.error e ∨
      ((∃ u, (Sessioning.getUser st).1 = Except.ok u) ∧
         parseObjectId idS = none ∧ e = Err.badId) ∨
      (∃ u oid, (Sessioning.getUser st).1 = Except.ok u ∧ parseObjectId idS = some oid ∧
         (Posting.assertAuthorIsUser oid u st).1 = Except.error e))) ∧
  (∀ pid, (Routes.getCommentsOnPosts pid st).1 = Except.error e ↔
     (objectId pid st).1 = Except.error e) ∧
  (∀ pid content options,
     (Routes.createCommentOnPost pid content options st).1 = Except.error e ↔
     ((Sessioning.getUser st).1 = Except.error e ∨
      ((∃ u, (Sessioning.getUser st).1 = Except.ok u) ∧
         parseObjectId pid = none ∧ e = Err.badId) ∨
      (∃ u oid, (Sessioning.getUser st).1 = Except.ok u ∧ parseObjectId pid = some oid ∧
         (Posting.assertPostExists oid st).1 = Except.error e))) ∧
  (∀ idS c o, (Routes.updateCommentOnPost idS c o st).1 = Except.error e ↔
     ((Sessioning.getUser st).1 = Except.error e ∨
      ((∃ u, (Sessioning.getUser st).1 = Except.ok u) ∧
         parseObjectId idS = none ∧ e = Err.badId) ∨
      (∃ u oid, (Sessioning.getUser st).1 = Except.ok u ∧ parseObjectId idS = some oid ∧
         (CommentOnPost.assertAuthorIsUser oid u st).1 = Except.error e))) ∧
  (∀ idS, (Routes.deleteCommentOnPost idS st).1 = Except.error e ↔
     ((Sessioning.getUser st).1 = Except.error e ∨
      ((∃ u, (Sessioning.getUser st).1 = Except.ok u) ∧
         parseObjectId idS = none ∧ e = Err.badId) ∨
      (∃ u oid, (Sessioning.getUser st).1 = Except.ok u ∧ parseObjectId idS = some oid ∧
         (CommentOnPost.assertAuthorIsUser oid u st).1 = Except.error e))) ∧
  (∀ username, (Routes.getLikes username st).1 = Except.error e ↔
     (Authing.getUserByUsername username st).1 = Except.error e) ∧
  (∀ pid, (Routes.getNumLikesOnPost pid st).1 = Except.error e ↔
     (objectId pid st).1 = Except.error e) ∧
  (∀ pid, (Routes.addLikeOnPost pid st).1 = Except.error e ↔
     ((Sessioning.getUser st).1 = Except.error e ∨
      ((∃ u, (Sessioning.getUser st).1 = Except.ok u) ∧
         parseObjectId pid = none ∧ e = Err.badId) ∨
      (∃ u oid, (Sessioning.getUser st).1 = Except.ok u ∧ parseObjectId pid = some oid ∧
         ((Posting.assertPostExists oid st).1 = Except.error e ∨
          ((Posting.assertPostExists oid st).1 = Except.ok () ∧
           (LikeOnPost.addLike oid u st).1 = Except.error e))))) ∧
  (∀ pid, (Routes.removeLikeOnPost pid st).1 = Except.error e ↔
     ((Sessioning.getUser st).1 = Except.error e ∨
      ((∃ u, (Sessioning.getUser st).1 = Except.ok u) ∧
         parseObjectId pid = none ∧ e = Err.badId) ∨
      (∃ u oid, (Sessioning.getUser st).1 = Except.ok u ∧ parseObjectId pid = some oid ∧
         ((Posting.assertPostExists oid st).1 = Except.error e ∨
          ((Posting.assertPostExists oid st).1 = Except.ok () ∧
           (LikeOnPost.removeLike oid u st).1 = Except.error e))))) ∧
  ((Routes.getFriends st).1 = Except.error e ↔
     (Sessioning.getUser st).1 = Except.error e) ∧
  (∀ friend, (Routes.removeFriend friend st).1 = Except.error e ↔
     ((Sessioning.getUser st).1 = Except.error e ∨
      ∃ u, (Sessioning.getUser st).1 = Except.ok u ∧
        ((Authing.getUserByUsername friend st).1 = Except.error e ∨
         ∃ t, (Authing.getUserByUsername friend st).1 = Except.ok t ∧
           (Friending.removeFriend u t.id st).1 = Except.error e))) ∧
  ((Routes.getRequests st).1 = Except.error e ↔
     (Sessioning.getUser st).1 = Except.error e) ∧
  (∀ toName, (Routes.sendFriendRequest toName st).1 = Except.error e ↔
     ((Sessioning.getUser st).1 = Except.error e ∨
      ∃ u, (Sessioning.getUser st).1 = Except.ok u ∧
        ((Authing.getUserByUsername toName st).1 = Except.error e ∨
         ∃ t, (Authing.getUserByUsername toName st).1 = Except.ok t ∧
           (Friending.sendRequest u t.id st).1 = Except.error e))) ∧
  (∀ toName, (Routes.removeFriendRequest toName st).1 = Except.error e ↔
     ((Sessioning.getUser st).1 = Except.error e ∨
      ∃ u, (Sessioning.getUser st).1 = Except.ok u ∧
        ((Authing.getUserByUsername toName st).1 = Except.error e ∨
         ∃ t, (Authing.getUserByUsername toName st).1 = Except.ok t ∧
           (Friending.removeRequest u t.id st).1 = Except.error e))) ∧
  (∀ fromName, (Routes.acceptFriendRequest fromName st).1 = Except.error e ↔
     ((Sessioning.getUser st).1 = Except.error e ∨
      ∃ u, (Sessioning.getUser st).1 = Except.ok u ∧
        ((Authing.getUserByUsername fromName st).1 = Except.error e ∨
         ∃ t, (Authing.getUserByUsername fromName st).1 = Except.ok t ∧
           (Friending.acceptRequest t.id u st).1 = Except.error e))) ∧
  (∀ fromName, (Routes.rejectFriendRequest fromName st).1 = Except.error e ↔
     ((Sessioning.getUser st).1 = Except.error e ∨
      ∃ u, (Sessioning.getUser st).1 = Except.ok u ∧
        ((Authing.getUserByUsername fromName st).1 = Except.error e ∨
         ∃ t, (Authing.getUserByUsername fromName st).1 = Except.ok t ∧
           (Friending.rejectRequest t.id u st).1 = Except.error e)))

/-- C8 (amended): the route layer performs no local recovery — for every
state and every error, each of the 28 route handlers fails exactly when
either its route-layer id parse fails (with `badId`) or one of its
delegated domain calls fails, and then with the error of that delegate
unchanged: no handler catches, transforms, or retries a domain error. -/
theorem C8_errors_propagate_unchanged :
    ∀ (st : St) (e : Err), errorsPropagateUnchanged st e :=
  fun st e =>
    ⟨getSessionUser_error_iff st e,
     getUsers_error_iff st e,
     getUser_error_iff st e,
     createUser_error_iff st e,
     updateUsername_error_iff st e,
     updatePassword_error_iff st e,
     deleteUser_error_iff st e,
     logIn_error_iff st e,
     logOut_error_iff st e,
     getPosts_error_iff st e,
     createPost_error_iff st e,
     updatePost_error_iff st e,
     deletePost_error_iff st e,
     getCommentsOnPosts_error_iff st e,
     createCommentOnPost_error_iff st e,
     updateCommentOnPost_error_iff st e,
     deleteCommentOnPost_error_iff st e,
     getLikes_error_iff st e,
     getNumLikesOnPost_error_iff st e,
     addLikeOnPost_error_iff st e,
     removeLikeOnPost_error_iff st e,
     getFriends_error_iff st e,
     removeFriend_error_iff st e,
     getRequests_error_iff st e,
     sendFriendRequest_error_iff st e,
     removeFriendRequest_error_iff st e,
     acceptFriendRequest_error_iff st e,
     rejectFriendRequest_error_iff st e⟩

theorem C8_witness : (Routes.deletePost "zz" stLoggedOut).1 = Except.error Err.notAuthenticated := by
  have h := C8_errors_propagate_unchanged stLoggedOut Err.notAuthenticated
  unfold errorsPropagateUnchanged at h
  exact (h.2.2.2.2.2.2.2.2.2.2.2.2.1 "zz").mpr (Or.inl rfl)

end Brainwave
